import Mathlib

/-!
Verification of the Loopio document Q&A generation pipeline.

Shallow embedding of the repository's Python modules:
  * `qa_generator.py`   — `QAGenerator` with `_get_relevant_chunks`,
    `_generate_questions`, `_generate_answer`, `generate_qa_pairs` and the
    nested helper `calculate_questions_per_chunk`;
  * `loopio_classifier.py` — `LoopioClassifier` with `_load_hierarchy`,
    `classify`, `_parse_response`;
  * `text_processor.py` — `TextProcessor.process` and `_clean_documents`.

Modelling conventions:
  * External collaborators (the Azure chat model, the embeddings model, the
    FAISS similarity search, the two `SemanticChunker` splitters) are oracle
    functions carried in the corresponding structure; an oracle returning
    `none` models the underlying call raising an exception.
  * A LangChain `Document` is modelled by its `page_content` together with
    the two metadata keys the code reads, `source` and `page` (absent key =
    `none`).  Page metadata values are strings fed to Python's `int(...)`,
    modelled by `pyInt`.
  * Python dicts are association lists with CPython semantics: assignment
    to an existing key overwrites in place, a new key is appended.
  * CPython `set` objects have an unspecified iteration order; they are
    modelled as insertion-ordered duplicate-free lists (`addNew`), and every
    theorem that depends on iteration order either is order-insensitive or
    quantifies over all permutations.
  * Raising inside a `try` block is modelled with `Option`: `none` is the
    exception caught by the corresponding `except` clause.
-/

/-- A LangChain `Document`: text content plus the `source` and `page`
metadata keys read by this repository (a missing key is `none`). -/
structure Document where
  page_content : String
  source : Option String
  page : Option String
  deriving Repr, DecidableEq

/-- Python `s.strip()`: drop whitespace from both ends.  (Implemented over
`List Char` so that it reduces inside the kernel; Lean's own `String.trim`
is extensionally the same operation.) -/
def pyStrip (s : String) : String :=
  String.mk (((s.toList.dropWhile Char.isWhitespace).reverse.dropWhile
    Char.isWhitespace).reverse)

/-- Python `s.startswith(pre)`. -/
def pyStartsWith (s pre : String) : Bool :=
  pre.toList.isPrefixOf s.toList

/-- Helper for `pySplitPred`: cut a character list at every character
satisfying the predicate. -/
def splitPredAux (p : Char → Bool) : List Char → List Char → List (List Char)
  | [], acc => [acc.reverse]
  | x :: xs, acc =>
    if p x then acc.reverse :: splitPredAux p xs []
    else splitPredAux p xs (x :: acc)

/-- Split a string at every character satisfying the predicate, keeping
empty fields (the semantics of Python `s.split(sep)` for a one-character
separator when the predicate is equality with it). -/
def pySplitPred (p : Char → Bool) (s : String) : List String :=
  (splitPredAux p s.toList []).map String.mk

/-- Python `s.split(c)` for a single-character separator. -/
def pySplitChar (c : Char) (s : String) : List String :=
  pySplitPred (· = c) s

/-- Python `int(s)` on a decimal string: optional surrounding whitespace,
optional sign, at least one digit; `none` models `ValueError`. -/
def pyInt (s : String) : Option Int :=
  let (sign, digits) :=
    match (pyStrip s).toList with
    | '-' :: rest => ((-1 : Int), rest)
    | '+' :: rest => ((1 : Int), rest)
    | cs => ((1 : Int), cs)
  if digits.length > 0 && digits.all Char.isDigit then
    some (sign * (digits.foldl (fun n c => n * 10 + (c.toNat - 48)) (0 : Nat) : Nat))
  else
    none

/-- Adding an element to a CPython `set`, modelled as an insertion-ordered
duplicate-free list: a member already present is not added again. -/
def addNew (l : List String) (s : String) : List String :=
  if s ∈ l then l else l ++ [s]

/-- CPython dict assignment `d[k] = v`: overwrite in place when the key
exists, append otherwise. -/
def dictSet {α : Type} (d : List (String × α)) (k : String) (v : α) :
    List (String × α) :=
  if d.any (fun kv => kv.1 = k) then
    d.map (fun kv => if kv.1 = k then (k, v) else kv)
  else
    d ++ [(k, v)]

/-- CPython dict lookup `d[k]`, `none` modelling `KeyError`. -/
def dictGet {α : Type} (d : List (String × α)) (k : String) : Option α :=
  (d.find? (fun kv => kv.1 = k)).map (fun kv => kv.2)

/-- CPython `d.update(kvs)`: apply `dictSet` for each pair in order. -/
def pyUpdate (d : List (String × α)) : List (String × α) → List (String × α)
  | [] => d
  | (k, v) :: rest => pyUpdate (dictSet d k v) rest

/-- Python `s.strip(chars)` restricted to one character class: drop the
character from both ends. -/
def pyStripChar (s : String) (c : Char) : String :=
  String.mk (((s.toList.dropWhile (· = c)).reverse.dropWhile (· = c)).reverse)

/-- Python `len(s.split())`: number of maximal non-empty whitespace-free
runs. -/
def wordCount (s : String) : Nat :=
  ((pySplitPred Char.isWhitespace s).filter (· ≠ "")).length

/-! ## `loopio_classifier.py` -/

/-- One row of the `Sheet1` taxonomy table: the four columns read by
`_load_hierarchy`; `none` models a cell with `pd.notna(...) = False`. -/
structure HRow where
  stack : Option String
  categories : Option String
  subcategories : Option String
  definition : Option String
  deriving Repr, DecidableEq

/-- subcategory ↦ definition -/
abbrev SubMap := List (String × String)
/-- category ↦ (subcategory ↦ definition) -/
abbrev CatMap := List (String × SubMap)
/-- stack ↦ category ↦ subcategory ↦ definition, the nested dict built by
`_load_hierarchy`. -/
abbrev Hier := List (String × CatMap)

/-- The subcategory assignment of `_load_hierarchy`'s loop body:
`hierarchy[current_stack][current_category][subcategory] = definition`,
with `none` modelling the `KeyError` when an outer key is missing. -/
def loadSub (cs cc : String) (h : Hier) (row : HRow) :
    Option ((String × String) × Hier) :=
  match row.subcategories with
  | none => some ((cs, cc), h)
  | some sub =>
    match dictGet h cs with
    | none => none
    | some cats =>
      match dictGet cats cc with
      | none => none
      | some subs =>
        some ((cs, cc),
          dictSet h cs (dictSet cats cc
            (dictSet subs sub (row.definition.getD "No definition provided."))))

/-- One iteration of `_load_hierarchy`'s `for _, row in df.iterrows()` loop,
threading `current_stack`, `current_category` and the dict. -/
def loadStep (st : (String × String) × Hier) (row : HRow) :
    Option ((String × String) × Hier) :=
  let cs0 := st.1.1
  let cc0 := st.1.2
  let h0 := st.2
  let cs := match row.stack with | some s => s | none => cs0
  let h1 := match row.stack with
    | some s => dictSet h0 s ([] : CatMap)
    | none => h0
  match row.categories with
  | some c =>
    match dictGet h1 cs with
    | none => none
    | some cats => loadSub cs c (dictSet h1 cs (dictSet cats c ([] : SubMap))) row
  | none => loadSub cs cc0 h1 row

/-- The nested mapping built by `_load_hierarchy` from the table rows;
`none` models an exception escaping the loop into the `except` clause. -/
def loadHierarchyDict (rows : List HRow) : Option Hier :=
  (rows.foldlM loadStep (("", ""), ([] : Hier))).map (fun st => st.2)

/-- The `hierarchy_str` rendering loop of `_load_hierarchy`. -/
def renderHierarchy (h : Hier) : String :=
  h.foldl
    (fun acc p =>
      p.2.foldl
        (fun acc2 q =>
          q.2.foldl
            (fun acc3 r =>
              acc3 ++ "    Subcategory: " ++ r.1 ++ "\n" ++
                "      Definition: " ++ r.2 ++ "\n")
            (acc2 ++ "  Category: " ++ q.1 ++ "\n"))
        (acc ++ "Stack: " ++ p.1 ++ "\n"))
    ""

/-- The minimal hierarchy string returned by `_load_hierarchy`'s `except`
clause. -/
def fallbackHierarchy : String :=
  "Stack: Unclassified\n  Category: General\n    Subcategory: Other\n      Definition: Default category for unclassified content.\n"

/-- `LoopioClassifier._load_hierarchy`: the table argument is `none` when
`pd.read_excel` itself raises. -/
def _load_hierarchy (table : Option (List HRow)) : String :=
  match table.bind loadHierarchyDict with
  | some h => renderHierarchy h
  | none => fallbackHierarchy

/-- The three-key dict `{stack, category, subcategory}` that
`_parse_response` and `classify` return (these are always exactly the keys
present). -/
structure Classification where
  stack : String
  category : String
  subcategory : String
  deriving Repr, DecidableEq

/-- The default classification `{Unclassified, General, Other}`. -/
def defaultClassification : Classification :=
  ⟨"Unclassified", "General", "Other"⟩

/-- `line.split(":")[1].strip().strip('"')` for a line already known to
start with a label. -/
def parseLabelValue (line : String) : String :=
  pyStripChar (pyStrip (((pySplitChar ':' line).get? 1).getD "")) '\"'

/-- One line of `_parse_response`'s loop: the `if`/`elif` chain on the three
label markers. -/
def _parse_line (cl : Classification) (line : String) : Classification :=
  if pyStartsWith line "Stack:" then
    { cl with stack := parseLabelValue line }
  else if pyStartsWith line "Category:" then
    { cl with category := parseLabelValue line }
  else if pyStartsWith line "Subcategory:" then
    { cl with subcategory := parseLabelValue line }
  else
    cl

/-- `LoopioClassifier._parse_response`. -/
def _parse_response (response : String) : Classification :=
  (pySplitChar '\n' response).foldl _parse_line defaultClassification

/-- The classification prompt of `LoopioClassifier`, with the three
placeholders substituted (example lines elided to their text). -/
def classifyPrompt (question answer hierarchy_context : String) : String :=
  String.intercalate "\n"
    [ "Classify the following Q&A pair into the appropriate Stack, Category, and Subcategory based on the provided hierarchy and definitions."
    , "", "Q&A Pair:"
    , "Question: " ++ question
    , "Answer: " ++ answer
    , "", "Hierarchy and Definitions:"
    , hierarchy_context
    , "", "Examples:"
    , "1. Question: \"What are your helpdesk support hours?\""
    , "Answer: \"The online Customer Support Portal and Helpdesk is available 24 hours a day...\""
    , "Classification: Stack: \"Medius General Organization and Support\", Category: \"Support\", Subcategory: \"Day-to-Day Support\""
    , "2. Question: \"What is your risk approach?\""
    , "Answer: \"Medius is aware that every project comes with risks...\""
    , "Classification: Stack: \"Medius General Organization and Support\", Category: \"Implementation Services\", Subcategory: \"Risk Management\""
    , "3. Question: \"What is the process for invoice validation?\""
    , "Answer: \"Invoice validation involves checking for discrepancies...\""
    , "Classification: Stack: \"Medius Procurement and APA\", Category: \"AP Automation\", Subcategory: \"Validation and Approval\""
    , "4. Question: \"How does the system handle user access control?\""
    , "Answer: \"Access control is managed via SSO and MFA...\""
    , "Classification: Stack: \"Security & Due Diligence\", Category: \"Access Control\", Subcategory: \"Methods\""
    , "", "Return the classification in the format:"
    , "Stack: \"[stack_name]\""
    , "Category: \"[category_name]\""
    , "Subcategory: \"[subcategory_name]\"" ]

/-- A `LoopioClassifier` instance: the hierarchy context string computed at
construction, and the chat-model oracle (`none` = the call raises). -/
structure LoopioClassifier where
  hierarchy : String
  llm : String → Option String

/-- `LoopioClassifier.classify`: invoke the model on the classification
prompt and parse, returning the fixed default on any failure. -/
def LoopioClassifier.classify (c : LoopioClassifier) (question answer : String) :
    Classification :=
  match c.llm (classifyPrompt question answer c.hierarchy) with
  | none => defaultClassification
  | some content => _parse_response content

/-! ## `qa_generator.py` -/

/-- The question-generation prompt of `QAGenerator`, with `num_questions`
and `text` substituted. -/
def questionPrompt (text : String) (num_questions : Nat) : String :=
  String.intercalate "\n"
    [ "As an Request for Proposal (RFP) reponse specialist, analyze this document section and generate " ++ toString num_questions ++ " high-value questions."
    , "", "Focus on questions that are related to RFP which has prospects as targets."
    , "Questions should be of type WH Questions as it will be used as a reference for the questions that can be asked when submitting an RFP but of course related to the document."
    , "", "Do Not generate questions : "
    , "- On the document\x27s table of contents."
    , "- On the document titles and headings."
    , "", "Question should probe critical document information."
    , "", "Document Section:"
    , text
    , "", "Return each question on a new line prefixed with \"Q: \"." ]

/-- The answer-generation prompt of `QAGenerator`, with `question` and
`context` substituted. -/
def answerPrompt (question context : String) : String :=
  String.intercalate "\n"
    [ "Given the following question and document context, provide a precise answer "
    , "that can be directly verified from the text. Include exact figures, dates, "
    , "or specifications when available."
    , "", "Question: " ++ question
    , "", "When providing your answer:"
    , "1. Answer must be precise, directly verifiable from the text and fully completed"
    , "2. Include exact figures, dates, or specifications when available"
    , "3. Only include information you can verify in the context"
    , "4. Be specific about which document contains each fact"
    , "", "Document Context:"
    , context
    , "", "Return the answer prefixed with \"A: \"." ]

/-- A `QAGenerator` instance.  `llm` is the chat-model oracle (`none` = the
`invoke` call raises); `search` models `FAISS.from_documents(...)` followed
by `similarity_search(question, k)` (`none` = anything inside the `try`
block of `_get_relevant_chunks` raises); `classifier` is `None` when no
hierarchy file was supplied. -/
structure QAGenerator where
  llm : String → Option String
  search : List Document → String → Nat → Option (List Document)
  max_workers : Nat
  classifier : Option LoopioClassifier

/-- `QAGenerator._get_relevant_chunks`: empty pool short-circuits to `[]`;
a failure of the vector search falls back to the first `top_n` chunks. -/
def QAGenerator._get_relevant_chunks (g : QAGenerator) (question : String)
    (chunks : List Document) (top_n : Nat) : List Document :=
  if chunks.isEmpty then []
  else
    match g.search chunks question top_n with
    | some r => r
    | none => chunks.take top_n

/-- `QAGenerator._generate_questions`: skip whitespace-only chunks, invoke
the model, keep the stripped lines starting with `Q:` with the marker
removed; an invoke failure yields `[]`. -/
def QAGenerator._generate_questions (g : QAGenerator) (chunk : Document)
    (num_questions : Nat) : List String :=
  if pyStrip chunk.page_content == "" then []
  else
    match g.llm (questionPrompt chunk.page_content num_questions) with
    | none => []
    | some content =>
      ((pySplitChar '\n' content).map pyStrip).filterMap
        (fun line => if pyStartsWith line "Q:" then some (pyStrip (line.drop 2)) else none)

/-- The metadata-collection loop of `_generate_answer`: accumulates
`used_pages` (as `str(int(page) + 1)`, set-deduplicated), `sources`
(set-deduplicated) and `context_pieces` over the relevant chunks; `none`
models the `ValueError` of `int(...)` on a non-convertible page value,
which the enclosing `try` converts into an absent pair. -/
def collectChunkInfo : List Document → List String → List String →
    List String → Option (List String × List String × List String)
  | [], pages, srcs, pieces => some (pages, srcs, pieces)
  | c :: rest, pages, srcs, pieces =>
    match (match c.page with
           | some p => (pyInt p).map (fun n => addNew pages (toString (n + 1)))
           | none => some pages) with
    | none => none
    | some pages2 =>
      let srcs2 := match c.source with
        | some s => addNew srcs s
        | none => srcs
      collectChunkInfo rest pages2 srcs2 (pieces ++ [c.page_content])

/-- The `answer = response.content.strip()` post-processing, dropping a
leading `A:` marker. -/
def stripAnswer (content : String) : String :=
  let answer := pyStrip content
  if pyStartsWith answer "A:" then pyStrip (answer.drop 2) else answer

/-- The classification attached to a pair by `_generate_answer`: the
classifier's result when one is configured, the fixed
`Unclassified`/`General`/`Other` triple otherwise. -/
def classificationOf (g : QAGenerator) (question answer : String) : Classification :=
  match g.classifier with
  | some c => c.classify question answer
  | none => ⟨"Unclassified", "General", "Other"⟩

/-- `QAGenerator._generate_answer`: select relevant chunks (`top_n = 3`),
return `None` on an empty selection, aggregate provenance, invoke the model
and build the 7-key pair dict; any exception inside the `try` (page
conversion, model invoke) yields `None`. -/
def QAGenerator._generate_answer (g : QAGenerator) (question : String)
    (context_chunks : List Document) : Option (List (String × String)) :=
  let relevant_chunks := g._get_relevant_chunks question context_chunks 3
  if relevant_chunks.isEmpty then none
  else
    match collectChunkInfo relevant_chunks [] [] [] with
    | none => none
    | some (used_pages, sources, context_pieces) =>
      match g.llm (answerPrompt question (String.intercalate "\n\n" context_pieces)) with
      | none => none
      | some content =>
        let answer := stripAnswer content
        let pair : List (String × String) :=
          [ ("question", question)
          , ("answer", answer)
          , ("source", if sources.isEmpty then "" else String.intercalate ", " sources)
          , ("page", if used_pages.isEmpty then "" else String.intercalate ", " used_pages) ]
        let cl := classificationOf g question answer
        some (pyUpdate pair
          [ ("stack", cl.stack), ("category", cl.category)
          , ("subcategory", cl.subcategory) ])

/-- The nested helper `calculate_questions_per_chunk` of
`generate_qa_pairs`. -/
def calculate_questions_per_chunk (chunk : Document) : Nat :=
  let word_count := wordCount chunk.page_content
  if word_count > 500 then 4
  else if word_count > 300 then 3
  else 2

/-- `QAGenerator.generate_qa_pairs`.  The two `ThreadPoolExecutor` stages
are modelled sequentially in submission order (each worker function is
total in this model, so `future.result()` never raises); per-chunk question
lists are flattened into `all_questions` (the `if questions:` guard is the
identity on the flattening), and only truthy pairs (`if pair:` — a
non-`None`, non-empty dict) are appended. -/
def QAGenerator.generate_qa_pairs (g : QAGenerator)
    (ques_gen_chunks ans_gen_chunks : List Document) :
    List (List (String × String)) :=
  let all_questions :=
    ques_gen_chunks.flatMap
      (fun chunk => g._generate_questions chunk (calculate_questions_per_chunk chunk))
  all_questions.filterMap
    (fun question =>
      match g._generate_answer question ans_gen_chunks with
      | some pair => if pair.isEmpty then none else some pair
      | none => none)

/-! ## `text_processor.py` -/

/-- A `TextProcessor` instance: the two `SemanticChunker` splitters are
external oracles (`split_documents` applied to the one-document list). -/
structure TextProcessor where
  ques_splitter : Document → List Document
  ans_splitter : Document → List Document

/-- `TextProcessor._clean_documents`: drop documents whose content strips to
empty, rebuild the rest with the same content and metadata. -/
def TextProcessor._clean_documents (_t : TextProcessor)
    (documents : List Document) : List Document :=
  documents.filterMap
    (fun doc =>
      if pyStrip doc.page_content == "" then none
      else some ⟨doc.page_content, doc.source, doc.page⟩)

/-- `TextProcessor.process`: clean, then split each non-empty document with
both splitters, accumulating the two chunk lists. -/
def TextProcessor.process (t : TextProcessor) (documents : List Document) :
    List Document × List Document :=
  let cleaned_docs := t._clean_documents documents
  cleaned_docs.foldl
    (fun acc doc =>
      if pyStrip doc.page_content == "" then acc
      else (acc.1 ++ t.ques_splitter doc, acc.2 ++ t.ans_splitter doc))
    ([], [])

/-! ## Spec-level reformulation of the taxonomy loader (for claim C7)

The spec describes `_load_hierarchy` as forward-fill: "a blank
Stack/Category cell inherits the most recent non-blank value above it".
`forwardFill` annotates each row with those inherited values up front;
`loadHierarchyFF` then performs the same inserts using the annotations
instead of the threaded `current_stack`/`current_category` state. -/

/-- Annotate each row with the forward-filled Stack and Categories values:
a blank cell inherits the running value, a non-blank cell replaces it. -/
def forwardFill : List HRow → String → String → List ((String × String) × HRow)
  | [], _, _ => []
  | r :: rest, cs, cc =>
    ((r.stack.getD cs, r.categories.getD cc), r) ::
      forwardFill rest (r.stack.getD cs) (r.categories.getD cc)

/-- The subcategory insert of the forward-filled loader, keyed by the
annotated stack/category values. -/
def specSub (fs fc : String) (h : Hier) (row : HRow) : Option Hier :=
  match row.subcategories with
  | none => some h
  | some sub =>
    match dictGet h fs with
    | none => none
    | some cats =>
      match dictGet cats fc with
      | none => none
      | some subs =>
        some (dictSet h fs (dictSet cats fc
          (dictSet subs sub (row.definition.getD "No definition provided."))))

/-- One row of the forward-filled loader: the same inserts as `loadStep`,
keyed by the row's annotations. -/
def specStep (h : Hier) (fs fc : String) (row : HRow) : Option Hier :=
  let h1 := match row.stack with
    | some s => dictSet h s ([] : CatMap)
    | none => h
  match row.categories with
  | some c =>
    match dictGet h1 fs with
    | none => none
    | some cats => specSub fs fc (dictSet h1 fs (dictSet cats c ([] : SubMap))) row
  | none => specSub fs fc h1 row

/-- The taxonomy mapping as the spec words it: forward-fill the blank
cells, then insert each row under its forward-filled stack and category. -/
def loadHierarchyFF (rows : List HRow) : Option Hier :=
  (forwardFill rows "" "").foldlM (fun h p => specStep h p.1.1 p.1.2 p.2) []

/-! ## Concrete instances used by counterexamples and witnesses -/

/-- The character list of `n` single-letter words separated by single
spaces. -/
def wchars : Nat → List Char
  | 0 => []
  | 1 => ['w']
  | n + 2 => 'w' :: ' ' :: wchars (n + 1)

/-- A string of `n` words. -/
def mkWords (n : Nat) : String := String.mk (wchars n)

/-- A context chunk with source and page metadata. -/
def ctxDoc : Document := ⟨"alpha beta", some "a.pdf", some "0"⟩

/-- A question-generation chunk. -/
def qDoc : Document := ⟨"What the product does", none, none⟩

/-- A chunk whose `page` metadata is not convertible by `int(...)`. -/
def badPageDoc : Document := ⟨"gamma", some "b.pdf", some "ii"⟩

/-- A metadata-free chunk (used duplicated to exhibit a pool with
duplicates). -/
def dupDoc : Document := ⟨"alpha", none, none⟩

/-- A generator whose chat model answers question prompts with one
question and every other prompt with the empty string, and whose vector
search always fails (so selection falls back to pool order). -/
def genEmptyAns : QAGenerator :=
  ⟨fun p => if pyStartsWith p "As" then some "Q: Who is it?" else some "",
   fun _ _ _ => none, 5, none⟩

/-- The pair `genEmptyAns` emits for `qDoc`/`ctxDoc`: its answer field is
the empty string. -/
def emptyAnswerPair : List (String × String) :=
  [ ("question", "Who is it?"), ("answer", ""), ("source", "a.pdf")
  , ("page", "1"), ("stack", "Unclassified"), ("category", "General")
  , ("subcategory", "Other") ]

/-- Context chunks whose `page` metadata values are "10", "2" and "5". -/
def pgDoc1 : Document := ⟨"alpha", some "a.pdf", some "10"⟩

/-- See `pgDoc1`. -/
def pgDoc2 : Document := ⟨"beta", some "a.pdf", some "2"⟩

/-- See `pgDoc1`. -/
def pgDoc3 : Document := ⟨"gamma", some "a.pdf", some "5"⟩

/-- A generator with a fixed non-empty answer and failing vector search. -/
def genPage : QAGenerator :=
  ⟨fun _ => some "A: An answer.", fun _ _ _ => none, 5, none⟩

/-- The pair `genPage` emits for the `pgDoc1`/`pgDoc2`/`pgDoc3` pool. -/
def pagePairExample : List (String × String) :=
  [ ("question", "q"), ("answer", "An answer."), ("source", "a.pdf")
  , ("page", "11, 3, 6"), ("stack", "Unclassified"), ("category", "General")
  , ("subcategory", "Other") ]

/-- A generator whose chat model and vector search both always fail. -/
def genFail : QAGenerator :=
  ⟨fun _ => none, fun _ _ _ => none, 5, none⟩

/-- A classifier whose chat model always fails. -/
def clsFail : LoopioClassifier := ⟨"h", fun _ => none⟩

/-- A classifier whose chat model returns a bare `Stack:` label line. -/
def clsBadLine : LoopioClassifier := ⟨"h", fun _ => some "Stack:"⟩

/-! ## Supporting lemmas -/

lemma split_wchars (n : Nat) :
    splitPredAux Char.isWhitespace (wchars (n + 1)) [] = List.replicate (n + 1) ['w'] := by
  induction n with
  | zero => rfl
  | succ m ih =>
    have hw : Char.isWhitespace 'w' = false := by decide
    have hs : Char.isWhitespace ' ' = true := by decide
    show splitPredAux Char.isWhitespace ('w' :: ' ' :: wchars (m + 1)) [] = _
    simp [splitPredAux, hw, hs, ih, List.replicate_succ]

lemma filter_w_len (k : Nat) :
    (((List.replicate k (['w'] : List Char)).map String.mk).filter
      (fun s => s ≠ "")).length = k := by
  induction k with
  | zero => rfl
  | succ m ih =>
    have hne : (String.mk ['w'] : String) ≠ "" := by decide
    simp only [List.replicate_succ, List.map_cons, List.filter_cons]
    simp [hne, ih]

lemma wordCount_mkWords (n : Nat) : wordCount (mkWords (n + 1)) = n + 1 := by
  show ((pySplitPred Char.isWhitespace (String.mk (wchars (n + 1)))).filter
    (· ≠ "")).length = n + 1
  unfold pySplitPred
  rw [show (String.mk (wchars (n + 1))).toList = wchars (n + 1) from rfl,
    split_wchars]
  exact filter_w_len (n + 1)

/-! ## Claim theorems -/

/-- C5: the requested question count is 2 for segments of at most 300
words, 3 for more than 300 up to 500, 4 for more than 500, and is monotone
non-decreasing in the segment's word count
(`calculate_questions_per_chunk` in `generate_qa_pairs`). -/
theorem questions_per_chunk_scaling (chunk chunk2 : Document) :
    (wordCount chunk.page_content ≤ 300 → calculate_questions_per_chunk chunk = 2) ∧
    (300 < wordCount chunk.page_content → wordCount chunk.page_content ≤ 500 →
      calculate_questions_per_chunk chunk = 3) ∧
    (500 < wordCount chunk.page_content → calculate_questions_per_chunk chunk = 4) ∧
    (wordCount chunk.page_content ≤ wordCount chunk2.page_content →
      calculate_questions_per_chunk chunk ≤ calculate_questions_per_chunk chunk2) := by
  refine ⟨?_, ?_, ?_, ?_⟩ <;> intros <;>
    simp only [calculate_questions_per_chunk] <;> split_ifs <;> omega

/-- Witness for C5 at concrete word counts 2, 301 and 501. -/
theorem questions_per_chunk_scaling_witness :
    calculate_questions_per_chunk ⟨mkWords 2, none, none⟩ = 2 ∧
    calculate_questions_per_chunk ⟨mkWords 301, none, none⟩ = 3 ∧
    calculate_questions_per_chunk ⟨mkWords 501, none, none⟩ = 4 ∧
    calculate_questions_per_chunk ⟨mkWords 2, none, none⟩ ≤
      calculate_questions_per_chunk ⟨mkWords 301, none, none⟩ := by
  have h2 : wordCount (mkWords 2) = 2 := wordCount_mkWords 1
  have h301 : wordCount (mkWords 301) = 301 := wordCount_mkWords 300
  have h501 : wordCount (mkWords 501) = 501 := wordCount_mkWords 500
  refine ⟨(questions_per_chunk_scaling _ ⟨mkWords 2, none, none⟩).1 (by rw [h2]; omega),
    (questions_per_chunk_scaling _ ⟨mkWords 2, none, none⟩).2.1
      (by rw [h301]; omega) (by rw [h301]; omega),
    (questions_per_chunk_scaling _ ⟨mkWords 2, none, none⟩).2.2.1 (by rw [h501]; omega),
    (questions_per_chunk_scaling ⟨mkWords 2, none, none⟩
      ⟨mkWords 301, none, none⟩).2.2.2 (by rw [h2, h301]; omega)⟩

/-- C3: when scoring/embedding fails (the vector-search oracle raises), the
selector returns exactly the first `min(top_n, |pool|)` pool members in
original order, and no error is propagated (`_get_relevant_chunks` is total
in this model). -/
theorem selector_fallback_first_min (g : QAGenerator) (question : String)
    (chunks : List Document) (top_n : Nat) (hpool : chunks ≠ [])
    (hfail : g.search chunks question top_n = none) :
    g._get_relevant_chunks question chunks top_n = chunks.take top_n ∧
    (g._get_relevant_chunks question chunks top_n).length =
      min top_n chunks.length := by
  have hne : chunks.isEmpty = false := by
    cases chunks with
    | nil => exact absurd rfl hpool
    | cons a l => rfl
  unfold QAGenerator._get_relevant_chunks
  rw [hne, hfail]
  exact ⟨rfl, List.length_take _ _⟩

/-- Witness for C3: a two-element pool, `top_n = 3`, failing search. -/
theorem selector_fallback_first_min_witness :
    genFail._get_relevant_chunks "q" [dupDoc, ctxDoc] 3 = [dupDoc, ctxDoc] ∧
    (genFail._get_relevant_chunks "q" [dupDoc, ctxDoc] 3).length = min 3 2 := by
  have h := selector_fallback_first_min genFail "q" [dupDoc, ctxDoc] 3
    (by simp) rfl
  exact ⟨h.1, h.2⟩

/-- C8: an empty input is not an error: `TextProcessor.process` on zero
documents returns `([], [])`, and `generate_qa_pairs` on zero
question-segments (hence zero elicited questions) returns the empty
collection. -/
theorem empty_input_empty_result :
    (∀ t : TextProcessor, t.process [] = ([], [])) ∧
    (∀ (g : QAGenerator) (ans_gen_chunks : List Document),
      g.generate_qa_pairs [] ans_gen_chunks = []) :=
  ⟨fun _ => rfl, fun _ _ => rfl⟩

/-- C1 counterexample: with a generation call returning the empty string,
`_generate_answer` still builds a pair whose answer field is `""`, and
`generate_qa_pairs` appends it (`if pair:` is true for a non-empty dict),
refuting "a pair with an empty answer field is never appended". -/
theorem no_answer_no_pair_cex :
    genEmptyAns.generate_qa_pairs [qDoc] [ctxDoc] = [emptyAnswerPair] ∧
    dictGet emptyAnswerPair "answer" = some "" := by
  exact ⟨by decide, by decide⟩

/-- C2 counterexample: selected segments with page metadata
`{"10", "2", "5"}` yield the page values `{"11", "3", "6"}` (the code adds
1 to each page before rendering) and no ordering of those three values —
the six lists below are all of them — joins to `"2, 5, 10"`; in the
insertion-order model of the CPython set the emitted field is
`"11, 3, 6"`, not `"2, 5, 10"`, and no sorting is applied. -/
theorem page_order_cex :
    genPage._generate_answer "q" [pgDoc1, pgDoc2, pgDoc3] = some pagePairExample ∧
    dictGet pagePairExample "page" = some "11, 3, 6" ∧
    ("11, 3, 6" : String) ≠ "2, 5, 10" ∧
    ((([ ["11", "3", "6"], ["11", "6", "3"], ["3", "11", "6"]
       , ["3", "6", "11"], ["6", "11", "3"], ["6", "3", "11"] ] :
      List (List String)).map
      (String.intercalate ", ")).all (· ≠ "2, 5, 10")) = true := by
  refine ⟨by decide, by decide, by decide, by decide⟩

/-- C4 counterexample: a pool containing the same document twice and a
failing scorer make the selector return `[dupDoc, dupDoc]`, which is not
duplicate-free, refuting the unconditional "duplicate-free" part of the
claim. -/
theorem topn_nodup_cex :
    genFail._get_relevant_chunks "q" [dupDoc, dupDoc] 2 = [dupDoc, dupDoc] ∧
    ¬ ([dupDoc, dupDoc] : List Document).Nodup := by
  exact ⟨by decide, by decide⟩

/-- C6 counterexample: the labelled line `Stack:` is present but malformed
(empty value); `_parse_response` sets stack to `""` instead of leaving the
`Unclassified` default, and `classify` passes that through. -/
theorem classifier_default_cex :
    _parse_response "Stack:" = ⟨"", "General", "Other"⟩ ∧
    clsBadLine.classify "q" "a" = ⟨"", "General", "Other"⟩ ∧
    ("" : String) ≠ "Unclassified" := by
  refine ⟨by decide, by decide, by decide⟩

/-- C4 amended: the selector returns `min(K, M)` members of the pool, is
empty on an empty pool, and is duplicate-free provided the pool itself is
duplicate-free (and the search collaborator honours the same contract when
it succeeds). -/
theorem topn_bound_amended (g : QAGenerator) (question : String)
    (chunks : List Document) (top_n : Nat)
    (hok : ∀ r, g.search chunks question top_n = some r →
      r.length = min top_n chunks.length ∧ (∀ x ∈ r, x ∈ chunks) ∧
      (chunks.Nodup → r.Nodup)) :
    (g._get_relevant_chunks question chunks top_n).length =
      min top_n chunks.length ∧
    (∀ x ∈ g._get_relevant_chunks question chunks top_n, x ∈ chunks) ∧
    (chunks.Nodup → (g._get_relevant_chunks question chunks top_n).Nodup) ∧
    (chunks = [] → g._get_relevant_chunks question chunks top_n = []) := by
  by_cases hc : chunks = []
  · subst hc
    simp [QAGenerator._get_relevant_chunks]
  · have he : chunks.isEmpty = false := by simpa [List.isEmpty_iff] using hc
    simp only [QAGenerator._get_relevant_chunks, he, Bool.false_eq_true,
      if_false]
    cases hs : g.search chunks question top_n with
    | some r =>
      obtain ⟨h1, h2, h3⟩ := hok r hs
      exact ⟨h1, h2, h3, fun h => absurd h hc⟩
    | none =>
      exact ⟨List.length_take _ _, fun x hx => List.take_subset _ _ hx,
        fun hnd => List.Nodup.sublist (List.take_sublist _ _) hnd,
        fun h => absurd h hc⟩

/-- Witness for C4's amended claim: duplicate-free two-element pool,
`top_n = 1`, failing search oracle (its success contract holds vacuously). -/
theorem topn_bound_amended_witness :
    (genFail._get_relevant_chunks "q" [dupDoc, ctxDoc] 1).length = min 1 2 ∧
    (∀ x ∈ genFail._get_relevant_chunks "q" [dupDoc, ctxDoc] 1,
      x ∈ [dupDoc, ctxDoc]) ∧
    (([dupDoc, ctxDoc] : List Document).Nodup →
      (genFail._get_relevant_chunks "q" [dupDoc, ctxDoc] 1).Nodup) ∧
    (([dupDoc, ctxDoc] : List Document) = [] →
      genFail._get_relevant_chunks "q" [dupDoc, ctxDoc] 1 = []) :=
  topn_bound_amended genFail "q" [dupDoc, ctxDoc] 1
    (fun _ h => Option.noConfusion h)

/-- No response line starting with `Stack:` leaves the stack field of the
fold unchanged. -/
lemma parse_foldl_stack (lines : List String) (cl : Classification)
    (h : ∀ l ∈ lines, pyStartsWith l "Stack:" = false) :
    (lines.foldl _parse_line cl).stack = cl.stack := by
  induction lines generalizing cl with
  | nil => rfl
  | cons x xs ih =>
    have hx := h x (by simp)
    have hrest : ∀ l ∈ xs, pyStartsWith l "Stack:" = false :=
      fun l hl => h l (by simp [hl])
    rw [List.foldl_cons, ih _ hrest]
    unfold _parse_line
    rw [hx]
    simp only [Bool.false_eq_true, if_false]
    split_ifs <;> rfl

/-- No response line starting with `Category:` leaves the category field of
the fold unchanged. -/
lemma parse_foldl_category (lines : List String) (cl : Classification)
    (h : ∀ l ∈ lines, pyStartsWith l "Category:" = false) :
    (lines.foldl _parse_line cl).category = cl.category := by
  induction lines generalizing cl with
  | nil => rfl
  | cons x xs ih =>
    have hx := h x (by simp)
    have hrest : ∀ l ∈ xs, pyStartsWith l "Category:" = false :=
      fun l hl => h l (by simp [hl])
    rw [List.foldl_cons, ih _ hrest]
    unfold _parse_line
    rw [hx]
    split_ifs <;> first | rfl | contradiction

/-- No response line starting with `Subcategory:` leaves the subcategory
field of the fold unchanged. -/
lemma parse_foldl_subcategory (lines : List String) (cl : Classification)
    (h : ∀ l ∈ lines, pyStartsWith l "Subcategory:" = false) :
    (lines.foldl _parse_line cl).subcategory = cl.subcategory := by
  induction lines generalizing cl with
  | nil => rfl
  | cons x xs ih =>
    have hx := h x (by simp)
    have hrest : ∀ l ∈ xs, pyStartsWith l "Subcategory:" = false :=
      fun l hl => h l (by simp [hl])
    rw [List.foldl_cons, ih _ hrest]
    unfold _parse_line
    rw [hx]
    split_ifs <;> first | rfl | contradiction

/-- C6 amended: when the underlying call raises, `classify` returns exactly
`{Unclassified, General, Other}`; a field is left at its default when no
response line starts with its exact label prefix (a line that does start
with the prefix overwrites the field with the possibly-empty text between
the first two colons, stripped of whitespace and quotes, as the
counterexample shows). -/
theorem classifier_default_amended :
    (∀ (c : LoopioClassifier) (q a : String),
      c.llm (classifyPrompt q a c.hierarchy) = none →
      c.classify q a = defaultClassification) ∧
    (∀ response : String,
      ((∀ l ∈ pySplitChar '\n' response, pyStartsWith l "Stack:" = false) →
        (_parse_response response).stack = "Unclassified") ∧
      ((∀ l ∈ pySplitChar '\n' response, pyStartsWith l "Category:" = false) →
        (_parse_response response).category = "General") ∧
      ((∀ l ∈ pySplitChar '\n' response,
          pyStartsWith l "Subcategory:" = false) →
        (_parse_response response).subcategory = "Other")) := by
  refine ⟨fun c q a h => ?_, fun resp =>
    ⟨fun h => parse_foldl_stack _ _ h,
     fun h => parse_foldl_category _ _ h,
     fun h => parse_foldl_subcategory _ _ h⟩⟩
  unfold LoopioClassifier.classify
  rw [h]

/-- Witness for C6's amended claim: a classifier whose call raises, and a
response with no label lines. -/
theorem classifier_default_amended_witness :
    clsFail.classify "q" "a" = defaultClassification ∧
    (_parse_response "no labels here").stack = "Unclassified" :=
  ⟨classifier_default_amended.1 clsFail "q" "a" rfl,
   (classifier_default_amended.2 "no labels here").1 (by decide)⟩

/-- `pyUpdate` of the three taxonomy keys onto the four base keys appends
them (the key sets are disjoint). -/
lemma pyUpdate_pair (q ans src pg st c sc : String) :
    pyUpdate [("question", q), ("answer", ans), ("source", src), ("page", pg)]
      [("stack", st), ("category", c), ("subcategory", sc)] =
    [("question", q), ("answer", ans), ("source", src), ("page", pg),
     ("stack", st), ("category", c), ("subcategory", sc)] := rfl

/-- Membership in a CPython set after an `add`. -/
lemma addNew_mem (l : List String) (a s : String) :
    s ∈ addNew l a ↔ s ∈ l ∨ s = a := by
  unfold addNew
  split_ifs with hm
  · exact ⟨Or.inl, fun hs => hs.elim id (fun e => e ▸ hm)⟩
  · simp

/-- A CPython set stays duplicate-free under `add`. -/
lemma addNew_nodup (l : List String) (a : String) (h : l.Nodup) :
    (addNew l a).Nodup := by
  unfold addNew
  split_ifs with hm
  · exact h
  · simp [List.nodup_append, h, hm]


/-- Inversion of `_generate_answer`: a returned pair records the stripped
model answer, the aggregated sources/pages of the selected chunks and the
classification, laid out as the seven fixed keys. -/
lemma generate_answer_some_shape {g : QAGenerator} {q : String}
    {chunks : List Document} {pair : List (String × String)}
    (h : g._generate_answer q chunks = some pair) :
    ∃ used_pages sources pieces s,
      (g._get_relevant_chunks q chunks 3).isEmpty = false ∧
      collectChunkInfo (g._get_relevant_chunks q chunks 3) [] [] [] =
        some (used_pages, sources, pieces) ∧
      g.llm (answerPrompt q (String.intercalate "\n\n" pieces)) = some s ∧
      pair = [("question", q), ("answer", stripAnswer s),
        ("source", if sources.isEmpty then ""
          else String.intercalate ", " sources),
        ("page", if used_pages.isEmpty then ""
          else String.intercalate ", " used_pages),
        ("stack", (classificationOf g q (stripAnswer s)).stack),
        ("category", (classificationOf g q (stripAnswer s)).category),
        ("subcategory", (classificationOf g q (stripAnswer s)).subcategory)] := by
  unfold QAGenerator._generate_answer at h
  by_cases he : (g._get_relevant_chunks q chunks 3).isEmpty
  · simp [he] at h
  · have he' : (g._get_relevant_chunks q chunks 3).isEmpty = false :=
      Bool.eq_false_iff.mpr he
    rw [if_neg (by simp [he'])] at h
    cases hc : collectChunkInfo (g._get_relevant_chunks q chunks 3) [] [] [] with
    | none => rw [hc] at h; exact absurd h (by simp)
    | some tri =>
      obtain ⟨up, srcs, pieces⟩ := tri
      rw [hc] at h
      dsimp only at h
      cases hl : g.llm (answerPrompt q (String.intercalate "\n\n" pieces)) with
      | none => rw [hl] at h; exact absurd h (by simp)
      | some s =>
        rw [hl] at h
        dsimp only at h
        refine ⟨up, srcs, pieces, s, he', rfl, hl, ?_⟩
        have h2 := Option.some.inj h
        rw [← h2, pyUpdate_pair]

/-- The accumulated `used_pages` of `collectChunkInfo` are exactly the
initial accumulator plus `str(int(page) + 1)` for every chunk carrying
convertible page metadata. -/
lemma collectChunkInfo_pages_mem :
    ∀ (chunks : List Document) (acc srcs pieces up s2 p2 : List String),
      collectChunkInfo chunks acc srcs pieces = some (up, s2, p2) →
      ∀ s, s ∈ up ↔ s ∈ acc ∨ ∃ c ∈ chunks, ∃ p n, c.page = some p ∧
        pyInt p = some n ∧ s = toString (n + 1) := by
  intro chunks
  induction chunks with
  | nil =>
    intro acc srcs pieces up s2 p2 h s
    simp only [collectChunkInfo, Option.some.injEq, Prod.mk.injEq] at h
    obtain ⟨h1, h2, h3⟩ := h
    subst h1
    simp
  | cons c rest ih =>
    intro acc srcs pieces up s2 p2 h s
    cases hp : c.page with
    | none =>
      simp only [collectChunkInfo, hp] at h
      rw [ih _ _ _ _ _ _ h s]
      simp [hp, List.exists_mem_cons]
    | some p =>
      cases hn : pyInt p with
      | none => simp [collectChunkInfo, hp, hn] at h
      | some n =>
        simp only [collectChunkInfo, hp, hn, Option.map] at h
        rw [ih _ _ _ _ _ _ h s, addNew_mem]
        constructor
        · rintro ((hs | hs) | hs)
          · exact Or.inl hs
          · exact Or.inr ⟨c, by simp, p, n, hp, hn, hs⟩
          · obtain ⟨c2, hc2, rest2⟩ := hs
            exact Or.inr ⟨c2, by simp [hc2], rest2⟩
        · rintro (hs | ⟨c2, hc2, p2', n2, hpage, hpy, hval⟩)
          · exact Or.inl (Or.inl hs)
          · rcases List.mem_cons.mp hc2 with hc2 | hc2
            · subst hc2
              rw [hp] at hpage
              obtain rfl := Option.some.inj hpage
              rw [hn] at hpy
              obtain rfl := Option.some.inj hpy
              exact Or.inl (Or.inr hval)
            · exact Or.inr ⟨c2, hc2, p2', n2, hpage, hpy, hval⟩

/-- The accumulated `used_pages` list stays duplicate-free. -/
lemma collectChunkInfo_pages_nodup :
    ∀ (chunks : List Document) (acc srcs pieces up s2 p2 : List String),
      acc.Nodup → collectChunkInfo chunks acc srcs pieces = some (up, s2, p2) →
      up.Nodup := by
  intro chunks
  induction chunks with
  | nil =>
    intro acc srcs pieces up s2 p2 hacc h
    simp only [collectChunkInfo, Option.some.injEq, Prod.mk.injEq] at h
    obtain ⟨h1, h2, h3⟩ := h
    exact h1 ▸ hacc
  | cons c rest ih =>
    intro acc srcs pieces up s2 p2 hacc h
    cases hp : c.page with
    | none =>
      simp only [collectChunkInfo, hp] at h
      exact ih _ _ _ _ _ _ hacc h
    | some p =>
      cases hn : pyInt p with
      | none => simp [collectChunkInfo, hp, hn] at h
      | some n =>
        simp only [collectChunkInfo, hp, hn, Option.map] at h
        exact ih _ _ _ _ _ _ (addNew_nodup _ _ hacc) h

/-- A chunk with non-convertible page metadata makes the collection loop
raise (`collectChunkInfo` returns `none`). -/
lemma collectChunkInfo_fail :
    ∀ (chunks : List Document) (acc srcs pieces : List String)
      (c : Document) (p : String), c ∈ chunks → c.page = some p →
      pyInt p = none → collectChunkInfo chunks acc srcs pieces = none := by
  intro chunks
  induction chunks with
  | nil => intro _ _ _ _ _ hc; exact absurd hc (by simp)
  | cons c0 rest ih =>
    intro acc srcs pieces c p hc hp hn
    rcases List.mem_cons.mp hc with hc | hc
    · subst hc
      simp [collectChunkInfo, hp, hn]
    · cases hp0 : c0.page with
      | none =>
        simp only [collectChunkInfo, hp0]
        exact ih _ _ _ c p hc hp hn
      | some p0 =>
        cases hn0 : pyInt p0 with
        | none => simp [collectChunkInfo, hp0, hn0]
        | some n0 =>
          simp only [collectChunkInfo, hp0, hn0, Option.map]
          exact ih _ _ _ c p hc hp hn

/-- An emitted pair is never the empty dict: it always has its seven keys,
so the `if pair:` truthiness guard in `generate_qa_pairs` never drops a
returned pair. -/
lemma generate_answer_some_ne_nil {g : QAGenerator} {q : String}
    {chunks : List Document} {pair : List (String × String)}
    (h : g._generate_answer q chunks = some pair) : pair ≠ [] := by
  obtain ⟨up, srcs, pieces, s, _, _, _, hpair⟩ := generate_answer_some_shape h
  simp [hpair]

/-- `generate_qa_pairs` is exactly the filter-map of `_generate_answer`
over the elicited questions. -/
lemma generate_qa_pairs_eq_filterMap (g : QAGenerator)
    (ques_gen_chunks ans_gen_chunks : List Document) :
    g.generate_qa_pairs ques_gen_chunks ans_gen_chunks =
      (ques_gen_chunks.flatMap (fun chunk =>
        g._generate_questions chunk
          (calculate_questions_per_chunk chunk))).filterMap
        (fun question => g._generate_answer question ans_gen_chunks) := by
  unfold QAGenerator.generate_qa_pairs
  apply List.filterMap_congr
  intro q _
  cases h : g._generate_answer q ans_gen_chunks with
  | none => rfl
  | some pair =>
    have hne := generate_answer_some_ne_nil h
    simp [List.isEmpty_iff, hne]

/-- C1 corrected: a question is dropped only when the selector returns no
chunks, a page conversion fails, or the generation call raises; a call
returning any string — including the empty string, whose stripped answer is
`""` — yields a pair that `generate_qa_pairs` appends (the truthiness
guard never drops a non-`None` pair). -/
theorem no_answer_no_pair_amended :
    (∀ (g : QAGenerator) (question : String) (chunks : List Document)
      (used_pages sources pieces : List String) (s : String),
      (g._get_relevant_chunks question chunks 3).isEmpty = false →
      collectChunkInfo (g._get_relevant_chunks question chunks 3) [] [] [] =
        some (used_pages, sources, pieces) →
      g.llm (answerPrompt question (String.intercalate "\n\n" pieces)) =
        some s →
      (g._generate_answer question chunks).map
        (fun pair => dictGet pair "answer") = some (some (stripAnswer s))) ∧
    (∀ (g : QAGenerator) (question : String) (chunks : List Document)
      (used_pages sources pieces : List String),
      collectChunkInfo (g._get_relevant_chunks question chunks 3) [] [] [] =
        some (used_pages, sources, pieces) →
      g.llm (answerPrompt question (String.intercalate "\n\n" pieces)) =
        none →
      g._generate_answer question chunks = none) ∧
    (∀ (g : QAGenerator) (qc ac : List Document),
      g.generate_qa_pairs qc ac =
        (qc.flatMap (fun chunk => g._generate_questions chunk
          (calculate_questions_per_chunk chunk))).filterMap
          (fun question => g._generate_answer question ac)) := by
  refine ⟨?_, ?_, generate_qa_pairs_eq_filterMap⟩
  · intro g question chunks up srcs pieces s hne hcol hllm
    unfold QAGenerator._generate_answer
    rw [if_neg (by simp [hne]), hcol]
    dsimp only
    rw [hllm]
    rfl
  · intro g question chunks up srcs pieces hcol hllm
    unfold QAGenerator._generate_answer
    by_cases he : (g._get_relevant_chunks question chunks 3).isEmpty
    · rw [if_pos he]
    · rw [if_neg he, hcol]
      dsimp only
      rw [hllm]

/-- Witness for C1's amended claim: the generator whose answer call returns
the empty string emits a pair with an empty answer field. -/
theorem no_answer_no_pair_amended_witness :
    (genEmptyAns._generate_answer "Who is it?" [ctxDoc]).map
      (fun pair => dictGet pair "answer") = some (some (stripAnswer "")) :=
  no_answer_no_pair_amended.1 genEmptyAns "Who is it?" [ctxDoc]
    ["1"] ["a.pdf"] ["alpha beta"] "" (by decide) (by decide) (by decide)

/-- C2 corrected: the page field is the comma-join of the deduplicated
values `str(int(page) + 1)` over the selected segments with page metadata,
in CPython set-iteration order (modelled as insertion order) — neither the
raw page numbers nor a sorted rendering. -/
theorem page_aggregation_amended (g : QAGenerator) (question : String)
    (chunks : List Document) (pair : List (String × String))
    (used_pages sources pieces : List String)
    (hcol : collectChunkInfo (g._get_relevant_chunks question chunks 3)
      [] [] [] = some (used_pages, sources, pieces))
    (hpair : g._generate_answer question chunks = some pair) :
    used_pages.Nodup ∧
    dictGet pair "page" = some (if used_pages.isEmpty then ""
      else String.intercalate ", " used_pages) ∧
    (∀ s ∈ used_pages, ∃ c ∈ g._get_relevant_chunks question chunks 3,
      ∃ p n, c.page = some p ∧ pyInt p = some n ∧ s = toString (n + 1)) := by
  obtain ⟨up2, srcs2, pieces2, s, hne, hcol2, hllm, hshape⟩ :=
    generate_answer_some_shape hpair
  have htr := Option.some.inj (hcol2.symm.trans hcol)
  simp only [Prod.mk.injEq] at htr
  obtain ⟨h1, h2, h3⟩ := htr
  subst h1 h2 h3
  refine ⟨collectChunkInfo_pages_nodup _ _ _ _ _ _ _ List.nodup_nil hcol2,
    ?_, ?_⟩
  · subst hshape; rfl
  · intro s2 hs2
    have hm := (collectChunkInfo_pages_mem _ _ _ _ _ _ _ hcol2 s2).mp hs2
    simpa using hm

/-- Witness for C2's amended claim at the `{"10", "2", "5"}` example. -/
theorem page_aggregation_amended_witness :
    (["11", "3", "6"] : List String).Nodup ∧
    dictGet pagePairExample "page" =
      some (if (["11", "3", "6"] : List String).isEmpty then ""
        else String.intercalate ", " ["11", "3", "6"]) ∧
    (∀ s ∈ (["11", "3", "6"] : List String),
      ∃ c ∈ genPage._get_relevant_chunks "q" [pgDoc1, pgDoc2, pgDoc3] 3,
      ∃ p n, c.page = some p ∧ pyInt p = some n ∧ s = toString (n + 1)) :=
  page_aggregation_amended genPage "q" [pgDoc1, pgDoc2, pgDoc3]
    pagePairExample ["11", "3", "6"] ["a.pdf"] ["alpha", "beta", "gamma"]
    (by decide) (by decide)

/-- C9: every emitted pair carries all seven keys, and with no classifier
configured the taxonomy fields are exactly
`Unclassified`/`General`/`Other`. -/
theorem qa_pair_keys (g : QAGenerator) (qc ac : List Document)
    (pair : List (String × String)) (hmem : pair ∈ g.generate_qa_pairs qc ac) :
    (dictGet pair "question").isSome ∧ (dictGet pair "answer").isSome ∧
    (dictGet pair "source").isSome ∧ (dictGet pair "page").isSome ∧
    (dictGet pair "stack").isSome ∧ (dictGet pair "category").isSome ∧
    (dictGet pair "subcategory").isSome ∧
    (g.classifier = none →
      dictGet pair "stack" = some "Unclassified" ∧
      dictGet pair "category" = some "General" ∧
      dictGet pair "subcategory" = some "Other") := by
  rw [generate_qa_pairs_eq_filterMap] at hmem
  obtain ⟨q, hq, hans⟩ := List.mem_filterMap.mp hmem
  obtain ⟨up, srcs, pieces, s, _, _, _, hshape⟩ :=
    generate_answer_some_shape hans
  subst hshape
  refine ⟨rfl, rfl, rfl, rfl, rfl, rfl, rfl, fun hcls => ?_⟩
  have hcl : classificationOf g q (stripAnswer s) =
      ⟨"Unclassified", "General", "Other"⟩ := by
    simp [classificationOf, hcls]
  rw [hcl]
  exact ⟨rfl, rfl, rfl⟩

/-- Witness for C9 at a concrete emitted pair. -/
theorem qa_pair_keys_witness :
    (dictGet emptyAnswerPair "question").isSome ∧
    (dictGet emptyAnswerPair "answer").isSome ∧
    (dictGet emptyAnswerPair "source").isSome ∧
    (dictGet emptyAnswerPair "page").isSome ∧
    (dictGet emptyAnswerPair "stack").isSome ∧
    (dictGet emptyAnswerPair "category").isSome ∧
    (dictGet emptyAnswerPair "subcategory").isSome ∧
    (genEmptyAns.classifier = none →
      dictGet emptyAnswerPair "stack" = some "Unclassified" ∧
      dictGet emptyAnswerPair "category" = some "General" ∧
      dictGet emptyAnswerPair "subcategory" = some "Other") :=
  qa_pair_keys genEmptyAns [qDoc] [ctxDoc] emptyAnswerPair (by decide)

/-- C10: each rendered page value is `str(int(page) + 1)` for a selected
chunk with page metadata (and only those chunks contribute); a selected
chunk whose page metadata is not integer-convertible makes
`_generate_answer` return `None`, so no partial pair is emitted. -/
theorem page_provenance :
    (∀ (chunks : List Document) (up srcs pieces : List String),
      collectChunkInfo chunks [] [] [] = some (up, srcs, pieces) →
      ∀ s, s ∈ up ↔ ∃ c ∈ chunks, ∃ p n, c.page = some p ∧
        pyInt p = some n ∧ s = toString (n + 1)) ∧
    (∀ (g : QAGenerator) (question : String) (chunks : List Document)
      (c : Document) (p : String),
      c ∈ g._get_relevant_chunks question chunks 3 → c.page = some p →
      pyInt p = none → g._generate_answer question chunks = none) := by
  constructor
  · intro chunks up srcs pieces h s
    have h2 := collectChunkInfo_pages_mem chunks [] [] [] up srcs pieces h s
    simpa using h2
  · intro g question chunks c p hc hp hn
    have hfail := collectChunkInfo_fail _ [] [] [] c p hc hp hn
    unfold QAGenerator._generate_answer
    by_cases he : (g._get_relevant_chunks question chunks 3).isEmpty
    · rw [if_pos he]
    · rw [if_neg he, hfail]

/-- Witness for C10: the page-value characterisation at a one-chunk pool
(metadata page `"0"` renders as `"1"`), and a non-convertible page value
(`"ii"`) suppressing the pair. -/
theorem page_provenance_witness :
    ("1" ∈ (["1"] : List String) ↔ ∃ c ∈ [ctxDoc], ∃ p n, c.page = some p ∧
      pyInt p = some n ∧ "1" = toString (n + 1)) ∧
    genPage._generate_answer "q" [badPageDoc] = none :=
  ⟨page_provenance.1 [ctxDoc] ["1"] ["a.pdf"] ["alpha beta"] (by decide) "1",
   page_provenance.2 genPage "q" [badPageDoc] badPageDoc "ii" (by decide)
     rfl (by decide)⟩

/-- The subcategory insert of `loadStep` agrees with `specSub` (it only
adds the threaded state to the result). -/
lemma loadSub_eq_spec (cs cc : String) (h : Hier) (row : HRow) :
    loadSub cs cc h row =
      (specSub cs cc h row).map (fun h2 => ((cs, cc), h2)) := by
  unfold loadSub specSub
  cases row.subcategories with
  | none => rfl
  | some sub =>
    cases hg : dictGet h cs with
    | none => simp [hg]
    | some cats =>
      simp only [hg]
      cases hg2 : dictGet cats cc with
      | none => simp [hg2]
      | some subs => simp [hg2]

/-- One step of the state-threading loader equals one step of the
forward-filled loader at the forward-filled values. -/
lemma loadStep_eq_spec (cs cc : String) (h : Hier) (row : HRow) :
    loadStep ((cs, cc), h) row =
      (specStep h (row.stack.getD cs) (row.categories.getD cc) row).map
        (fun h2 => ((row.stack.getD cs, row.categories.getD cc), h2)) := by
  cases hs : row.stack with
  | none =>
    cases hc : row.categories with
    | none =>
      simp only [loadStep, specStep, hs, hc, Option.getD_none]
      exact loadSub_eq_spec cs cc h row
    | some c =>
      simp only [loadStep, specStep, hs, hc, Option.getD_none,
        Option.getD_some]
      cases dictGet h cs with
      | none => rfl
      | some cats => exact loadSub_eq_spec cs c _ row
  | some s =>
    cases hc : row.categories with
    | none =>
      simp only [loadStep, specStep, hs, hc, Option.getD_none,
        Option.getD_some]
      exact loadSub_eq_spec s cc _ row
    | some c =>
      simp only [loadStep, specStep, hs, hc, Option.getD_some]
      cases dictGet (dictSet h s ([] : CatMap)) s with
      | none => rfl
      | some cats => exact loadSub_eq_spec s c _ row

/-- The whole loader fold equals the forward-filled fold. -/
lemma load_foldlM_eq (rows : List HRow) :
    ∀ (cs cc : String) (h : Hier),
      (rows.foldlM loadStep ((cs, cc), h)).map (fun st => st.2) =
        (forwardFill rows cs cc).foldlM
          (fun h2 p => specStep h2 p.1.1 p.1.2 p.2) h := by
  induction rows with
  | nil => intro cs cc h; rfl
  | cons r rest ih =>
    intro cs cc h
    rw [forwardFill, List.foldlM_cons, List.foldlM_cons, loadStep_eq_spec]
    cases hspec : specStep h (r.stack.getD cs) (r.categories.getD cc) r with
    | none => rfl
    | some h2 =>
      simpa using ih (r.stack.getD cs) (r.categories.getD cc) h2

/-- The stack annotation of `forwardFill` at row `i` is the most recent
non-blank `Stack` value at or before row `i` (the initial value when none
exists). -/
lemma forwardFill_stack_annot :
    ∀ (rows : List HRow) (cs cc : String) (i : Nat),
      ((forwardFill rows cs cc).get? i).map (fun p => p.1.1) =
        (rows.get? i).map (fun _ =>
          ((rows.take (i + 1)).filterMap HRow.stack).getLastD cs) := by
  intro rows
  induction rows with
  | nil => intro cs cc i; rfl
  | cons r rest ih =>
    intro cs cc i
    cases i with
    | zero =>
      cases hs : r.stack with
      | none => simp [forwardFill, hs]
      | some s => simp [forwardFill, hs]
    | succ j =>
      cases hs : r.stack with
      | none =>
        simp only [forwardFill, hs, Option.getD_none, List.get?_cons_succ,
          List.take_succ_cons, List.filterMap_cons]
        exact ih cs (r.categories.getD cc) j
      | some s =>
        simp only [forwardFill, hs, Option.getD_some, List.get?_cons_succ,
          List.take_succ_cons, List.filterMap_cons, List.getLastD_cons]
        exact ih s (r.categories.getD cc) j

/-- The category annotation of `forwardFill` at row `i` is the most recent
non-blank `Categories` value at or before row `i`. -/
lemma forwardFill_cat_annot :
    ∀ (rows : List HRow) (cs cc : String) (i : Nat),
      ((forwardFill rows cs cc).get? i).map (fun p => p.1.2) =
        (rows.get? i).map (fun _ =>
          ((rows.take (i + 1)).filterMap HRow.categories).getLastD cc) := by
  intro rows
  induction rows with
  | nil => intro cs cc i; rfl
  | cons r rest ih =>
    intro cs cc i
    cases i with
    | zero =>
      cases hc : r.categories with
      | none => simp [forwardFill, hc]
      | some c => simp [forwardFill, hc]
    | succ j =>
      cases hc : r.categories with
      | none =>
        simp only [forwardFill, hc, Option.getD_none, List.get?_cons_succ,
          List.take_succ_cons, List.filterMap_cons]
        exact ih (r.stack.getD cs) cc j
      | some c =>
        simp only [forwardFill, hc, Option.getD_some, List.get?_cons_succ,
          List.take_succ_cons, List.filterMap_cons, List.getLastD_cons]
        exact ih (r.stack.getD cs) c j

/-- C7: `_load_hierarchy`'s threaded loop is exactly the forward-fill
semantics — rows with blank `Stack`/`Categories` cells are processed under
the most recent non-blank value from earlier rows (the `forwardFill`
annotation, whose value at each row is proved to be the last non-blank cell
at or before it), yielding the nested stack → category → subcategory →
definition mapping; a blank `Definition` cell stores the fixed placeholder
`"No definition provided."`. -/
theorem taxonomy_forward_fill :
    (∀ rows : List HRow, loadHierarchyDict rows = loadHierarchyFF rows) ∧
    (∀ (rows : List HRow) (cs cc : String) (i : Nat),
      ((forwardFill rows cs cc).get? i).map (fun p => p.1.1) =
        (rows.get? i).map (fun _ =>
          ((rows.take (i + 1)).filterMap HRow.stack).getLastD cs)) ∧
    (∀ (rows : List HRow) (cs cc : String) (i : Nat),
      ((forwardFill rows cs cc).get? i).map (fun p => p.1.2) =
        (rows.get? i).map (fun _ =>
          ((rows.take (i + 1)).filterMap HRow.categories).getLastD cc)) ∧
    loadHierarchyDict [⟨some "S", some "C", some "Sub", none⟩] =
      some [("S", [("C", [("Sub", "No definition provided.")])])] := by
  refine ⟨fun rows => ?_, forwardFill_stack_annot, forwardFill_cat_annot,
    by rfl⟩
  unfold loadHierarchyDict loadHierarchyFF
  exact load_foldlM_eq rows "" "" []
